import Mathlib

/-!
Verification of the M5Scribe firmware (src/src/main.cpp) against its
natural-language specification.

The single source file implements, on one cooperative control loop:
an audio-level analyzer (calculateAudioLevel), a connection state machine
over the globals btConnected / btDiscoverable / discoverableStartTime,
a differential display update (updateDisplay), touch handling, a
discoverability timeout, and a backpressure-retrying transmit loop.

All machine integers are modelled as Nat / Int, with explicit reduction
modulo 2^32 where 32-bit unsigned wrap-around matters (millis()
arithmetic on unsigned long).  C integer division truncates toward zero,
which is Int.tdiv.  Division by zero (undefined behaviour in C) is made
explicit with Option.
-/

/-- 2^32, the modulus of 32-bit unsigned arithmetic (unsigned long on ESP32). -/
def U32 : Nat := 4294967296

/-- 32-bit unsigned subtraction a - b, as in C expressions such as
millis() - discoverableStartTime on unsigned long. -/
def usub (a b : Nat) : Nat := (a % U32 + (U32 - b % U32)) % U32

/-- const unsigned long DISCOVERABLE_DURATION = 60000 (line 34). -/
def DISCOVERABLE_DURATION : Nat := 60000

/-- #define DATA_SIZE 2048 (line 27). -/
def DATA_SIZE : Nat := 2048

/-- Reinterpret a 16-bit little-endian value as a signed int16_t. -/
def toInt16 (v : Nat) : Int :=
  if v % 65536 < 32768 then ((v % 65536 : Nat) : Int)
  else ((v % 65536 : Nat) : Int) - 65536

/-- The cast int16_t* samples = (int16_t*)buffer (line 85): consecutive
byte pairs, little-endian, become signed 16-bit samples; a trailing odd
byte is not read because the loop runs for sampleCount = length / 2
samples. -/
def bytesToSamples : List Nat → List Int
  | b0 :: b1 :: rest => toInt16 (b0 % 256 + 256 * (b1 % 256)) :: bytesToSamples rest
  | _ => []

theorem bytesToSamples_length : ∀ l : List Nat, (bytesToSamples l).length = l.length / 2
  | [] => rfl
  | [_] => by simp [bytesToSamples]
  | _ :: _ :: rest => by
      simp only [bytesToSamples, List.length_cons, bytesToSamples_length rest]
      omega

/-- Lines 88-105 of calculateAudioLevel: sum and maximum of absolute
sample values, avg = sum / sampleCount, combined = (avg*3 + maxSample)/4,
audioLevel = map(combined, 100, 2000, 0, 100) with the Arduino map
formula (x - in_min) * (out_max - out_min) / (in_max - in_min) + out_min
in C truncating division, then constrain(audioLevel, 0, 100).
Only meaningful when sampleCount = buffer.length / 2 is nonzero; the
caller calculateAudioLevel guards that. -/
def mappedLevel (buffer : List Nat) : Int :=
  let samples := bytesToSamples buffer
  let sum : Nat := (samples.map Int.natAbs).sum
  let maxSample : Nat := (samples.map Int.natAbs).foldl max 0
  let avg : Nat := sum / (buffer.length / 2)
  let combined : Nat := (avg * 3 + maxSample) / 4
  let mapped : Int := Int.tdiv ((((combined : Nat) : Int) - 100) * 100) 1900
  max 0 (min 100 mapped)

/-- calculateAudioLevel (lines 84-111).  The function takes the raw byte
buffer and the static int lastLevel, and produces the new audioLevel
(which is also the new lastLevel, line 110).  When sampleCount =
length / 2 is zero (a one-byte call), line 100 divides by zero, which is
undefined behaviour in C: modelled as none. -/
def calculateAudioLevel (buffer : List Nat) (lastLevel : Int) : Option Int :=
  if buffer.length / 2 = 0 then none
  else some (Int.tdiv (mappedLevel buffer * 7 + lastLevel * 3) 10)

/-- Modelled from the spec wording of the LevelAnalyzer contract (spec
4.2): mean and peak absolute amplitude over the block samples,
combined = (3*mean + peak) / 4, a linear map of combined from the raw
range 100-2000 to 0-100 clamped to [0,100], then
new = (mapped*7 + previous*3) / 10.  Used only to compare against the
code-derived calculateAudioLevel. -/
def levelAnalyzerSpec (samples : List Int) (previous : Int) : Int :=
  let mean : Nat := (samples.map Int.natAbs).sum / samples.length
  let peak : Nat := (samples.map Int.natAbs).foldr max 0
  let combined : Nat := (3 * mean + peak) / 4
  let mapped : Int := Int.tdiv ((((combined : Nat) : Int) - 100) * (100 - 0)) (2000 - 100) + 0
  let clamped := max 0 (min 100 mapped)
  Int.tdiv (clamped * 7 + previous * 3) 10

theorem foldl_max_eq_foldr (l : List Nat) : ∀ a : Nat, l.foldl max a = max a (l.foldr max 0) := by
  induction l with
  | nil => intro a; simp
  | cons x xs ih =>
      intro a
      simp only [List.foldl_cons, List.foldr_cons, ih (max a x)]
      omega

/-- The three connection states of spec section 3.  In the code the
state is carried by the pair of globals (btConnected, btDiscoverable)
declared on lines 31-32, read back as
currentState = btConnected ? 2 : (btDiscoverable ? 1 : 0) (line 281). -/
inductive ConnState where
  | Idle
  | Discoverable
  | Streaming
deriving DecidableEq

/-- The global mutable state of main.cpp that the claims touch:
lines 31-34 (connection globals), 40-44 (UI globals), the static locals
of calculateAudioLevel (line 108), loop (line 491) and updateDisplay
(lines 274-278). -/
structure SysState where
  btConnected : Bool
  btDiscoverable : Bool
  discoverableStartTime : Nat
  needsFullRedraw : Bool
  lastDisplayState : Int
  audioLevel : Int
  lastLevel : Int
  lastAudioUpdate : Nat
  lastTouchState : Bool
  dispLastUpdate : Nat
  dispLastAudioLevel : Int
  dispLastRemainingTime : Nat
  dispLastStatusBar : Nat
deriving DecidableEq

/-- currentState as computed on line 281: 2 connected, 1 discoverable,
0 idle (-1 is the initial value of lastDisplayState, line 43). -/
def displayStateCode (s : SysState) : Int :=
  if s.btConnected then 2 else if s.btDiscoverable then 1 else 0

/-- The abstract connection state determined by the two flags. -/
def connState (s : SysState) : ConnState :=
  if s.btConnected then .Streaming
  else if s.btDiscoverable then .Discoverable
  else .Idle

/-- The two transport events handled by btCallback (line 422):
ESP_SPP_SRV_OPEN_EVT (peer attach) and ESP_SPP_CLOSE_EVT (peer detach);
every other event value falls through the if/else-if untouched. -/
inductive SppEvent where
  | srvOpen
  | close
  | otherEvt
deriving DecidableEq

/-- btCallback (lines 422-432): attach sets btConnected and requests a
full redraw; detach clears btConnected and requests a full redraw.
btDiscoverable is not written by the callback. -/
def btCallback (event : SppEvent) (s : SysState) : SysState :=
  match event with
  | .srvOpen => { s with btConnected := true, needsFullRedraw := true }
  | .close => { s with btConnected := false, needsFullRedraw := true }
  | .otherEvt => s

/-- What one updateDisplay call did, for stating display claims:
whether the full-screen redraw branch (lines 284-296) ran, the
currentState value it computed on line 281, and the remaining-seconds
countdown value if the Discoverable animation branch computed one
(line 384). -/
structure DispObs where
  fullRedraw : Bool
  observedState : Int
  countdown : Option Nat
deriving DecidableEq

/-- Line 284 of updateDisplay: the full-screen redraw happens exactly
when currentState differs from lastDisplayState or needsFullRedraw is
set. -/
def fullRedrawCond (s : SysState) : Bool :=
  decide (displayStateCode s ≠ s.lastDisplayState) || s.needsFullRedraw

/-- Lines 284-296 of updateDisplay: on a full redraw, record the new
lastDisplayState, clear needsFullRedraw and reset the static diff
trackers (lastAudioLevel = -1, lastRemainingTime = 999,
lastStatusBarUpdate = millis()). -/
def fullRedrawStep (now : Nat) (s : SysState) : SysState :=
  if fullRedrawCond s then
    { s with lastDisplayState := displayStateCode s, needsFullRedraw := false,
             dispLastAudioLevel := -1, dispLastRemainingTime := 999,
             dispLastStatusBar := now }
  else s

/-- Lines 302-305 of updateDisplay: redraw the status bar every 5
seconds, independent of the diffing. -/
def statusBarStep (now : Nat) (s : SysState) : SysState :=
  if usub now s.dispLastStatusBar > 5000 then { s with dispLastStatusBar := now } else s

/-- Lines 309-353 of updateDisplay, the Streaming branch: when the 50 ms
animation timer fires, the level bar tracker follows audioLevel
(lines 340-350) and lastUpdate advances. -/
def streamBranch (now : Nat) (s : SysState) : SysState :=
  if usub now s.dispLastUpdate > 50 then
    if s.audioLevel ≠ s.dispLastAudioLevel then
      { s with dispLastAudioLevel := s.audioLevel, dispLastUpdate := now }
    else { s with dispLastUpdate := now }
  else s

/-- Line 384 of updateDisplay: remaining = (DISCOVERABLE_DURATION -
(millis() - discoverableStartTime)) / 1000 in 32-bit unsigned
arithmetic. -/
def remainingSecs (now start : Nat) : Nat :=
  usub DISCOVERABLE_DURATION (usub now start) / 1000

/-- Lines 370-394 of updateDisplay, the animation part of the
Discoverable branch: when the 50 ms timer fires, the remaining-seconds
value is computed (line 384), tracked when it changed, and lastUpdate
advances.  Returns the computed countdown value, if any. -/
def discBranchAnim (now : Nat) (s : SysState) : SysState × Option Nat :=
  if usub now s.dispLastUpdate > 50 then
    if remainingSecs now s.discoverableStartTime ≠ s.dispLastRemainingTime then
      ({ s with dispLastRemainingTime := remainingSecs now s.discoverableStartTime,
                dispLastUpdate := now },
       some (remainingSecs now s.discoverableStartTime))
    else ({ s with dispLastUpdate := now },
          some (remainingSecs now s.discoverableStartTime))
  else (s, none)

/-- Lines 355-394 of updateDisplay, the Discoverable branch: the static
chrome is marked drawn via lastAudioLevel = 0 (line 366), then the
animation part runs. -/
def discBranch (now : Nat) (s : SysState) : SysState × Option Nat :=
  if s.dispLastAudioLevel = -1 then discBranchAnim now { s with dispLastAudioLevel := 0 }
  else discBranchAnim now s

/-- Lines 396-416 of updateDisplay, the Idle branch: the static screen
is drawn once, marked via lastAudioLevel = 0 (line 414). -/
def idleBranch (s : SysState) : SysState :=
  if s.dispLastAudioLevel = -1 then { s with dispLastAudioLevel := 0 } else s

/-- updateDisplay (lines 273-419), restricted to its effect on modelled
state: currentState is computed on line 281 from the incoming flags,
then the full-redraw step, the status bar refresh, and the branch for
the current state run in order.  Pixel drawing itself is outside the
model; the DispObs records the observable policy decisions. -/
def updateDisplay (now : Nat) (s : SysState) : SysState × DispObs :=
  let cur := displayStateCode s
  let full := fullRedrawCond s
  let s2 := statusBarStep now (fullRedrawStep now s)
  if s2.btConnected then (streamBranch now s2, ⟨full, cur, none⟩)
  else if s2.btDiscoverable then
    let db := discBranch now s2
    (db.1, ⟨full, cur, db.2⟩)
  else (idleBranch s2, ⟨full, cur, none⟩)

/-- One touch sample as returned by M5.Touch.getPressPoint (line 492):
coordinates may be negative (no contact). -/
structure TouchPoint where
  x : Int
  y : Int
deriving DecidableEq

/-- Touch handling, lines 491-529: touching = pos.x > 0 && pos.y > 0;
the CONNECT region (lines 496-510) fires only when idle, on a rising
edge, inside 70..250 x 190..240, and enters Discoverable stamping
discoverableStartTime = millis(); the STOP region (lines 513-527) fires
only when connected, on a rising edge, inside 195..305 x 185..230, and
clears both flags after SerialBT.disconnect().  Returns the state plus
whether each button fired. -/
def touchPhase (now : Nat) (pos : TouchPoint) (s : SysState) : SysState × Bool × Bool :=
  let touching : Bool := decide (pos.x > 0) && decide (pos.y > 0)
  let connectHit : Bool := !s.btConnected && !s.btDiscoverable && touching
      && !s.lastTouchState
      && decide (70 ≤ pos.x ∧ pos.x ≤ 250 ∧ 190 ≤ pos.y ∧ pos.y ≤ 240)
  let s1 := if connectHit then
      { s with btDiscoverable := true, discoverableStartTime := now,
               needsFullRedraw := true }
    else s
  let stopHit : Bool := s1.btConnected && touching && !s1.lastTouchState
      && decide (195 ≤ pos.x ∧ pos.x ≤ 305 ∧ 185 ≤ pos.y ∧ pos.y ≤ 230)
  let s2 := if stopHit then
      { s1 with btConnected := false, btDiscoverable := false,
                needsFullRedraw := true }
    else s1
  ({ s2 with lastTouchState := touching }, connectHit, stopHit)

/-- Discoverability timeout, lines 532-538: while discoverable and not
connected, if millis() - discoverableStartTime > DISCOVERABLE_DURATION
(unsigned arithmetic) clear btDiscoverable and request a redraw. -/
def timeoutPhase (now : Nat) (s : SysState) : SysState :=
  if s.btDiscoverable && !s.btConnected
      && decide (usub now s.discoverableStartTime > DISCOVERABLE_DURATION) then
    { s with btDiscoverable := false, needsFullRedraw := true }
  else s

/-- One iteration of the transport as seen by the transmit loop
(lines 562-569): the value of btConnected at the loop test, and how many
bytes SerialBT.write would accept if offered the remainder (0 models a
full queue, after which the code delays 1 ms and retries). -/
structure Step where
  connected : Bool
  accepted : Nat
deriving DecidableEq

/-- The transmit loop, lines 561-569:
while (totalWritten < bytesRead && btConnected) offer the remainder;
add what was accepted, or delay when nothing was.  The schedule lists
the successive transport iterations; each accepted count is capped by
the remainder actually offered.  Returns totalWritten. -/
def transmitLoop : Nat → Nat → List Step → Nat
  | total, _, [] => total
  | total, n, st :: rest =>
      if total < n && st.connected then
        transmitLoop (total + min st.accepted (n - total)) n rest
      else total

/-- Streaming body of loop, lines 541-578: only when btConnected, read
one block (none models an i2s_read error); when bytes were read, update
the audio level at most every 50 ms (lines 555-558) and run the transmit
loop.  Returns (totalWritten, bytesRead) when a block was sent.  The
none branch of calculateAudioLevel (C undefined behaviour on a one-byte
read) is modelled as leaving the level state unchanged. -/
def audioPhase (now : Nat) (audioRead : Option (List Nat)) (sched : List Step)
    (s : SysState) : SysState × Option (Nat × Nat) :=
  if s.btConnected then
    match audioRead with
    | some buf =>
        if buf.length > 0 then
          let s1 := if usub now s.lastAudioUpdate > 50 then
              match calculateAudioLevel buf s.lastLevel with
              | some lvl => { s with audioLevel := lvl, lastLevel := lvl,
                                     lastAudioUpdate := now }
              | none => s
            else s
          (s1, some (transmitLoop 0 buf.length sched, buf.length))
        else (s, none)
    | none => (s, none)
  else (s, none)

/-- The per-tick inputs of loop(): the touch sample, the millis() clock,
the i2s_read outcome and the transport schedule for this block. -/
structure TickInput where
  pos : TouchPoint
  now : Nat
  audioRead : Option (List Nat)
  sched : List Step

/-- Observations of one loop() iteration. -/
structure TickObs where
  disp : DispObs
  connectHit : Bool
  stopHit : Bool
  sent : Option (Nat × Nat)
deriving DecidableEq

/-- One iteration of loop() (lines 484-578), in the textual order of the
code: updateDisplay (line 488), then touch handling (lines 491-529),
then the discoverability timeout (lines 531-538), then the streaming
audio body (lines 541-578). -/
def tick (i : TickInput) (s : SysState) : SysState × TickObs :=
  let dres := updateDisplay i.now s
  let tres := touchPhase i.now i.pos dres.1
  let s3 := timeoutPhase i.now tres.1
  let ares := audioPhase i.now i.audioRead i.sched s3
  (ares.1, ⟨dres.2, tres.2.1, tres.2.2, ares.2⟩)

/-- The fields of SysState that updateDisplay never writes: the
connection flags, the discoverable entry timestamp, the touch edge
tracker and the audio-level smoothing state. -/
def coreView (s : SysState) : Bool × Bool × Nat × Bool × Int × Nat :=
  (s.btConnected, s.btDiscoverable, s.discoverableStartTime,
   s.lastTouchState, s.lastLevel, s.lastAudioUpdate)

theorem fullRedrawStep_core (now : Nat) (s : SysState) :
    coreView (fullRedrawStep now s) = coreView s := by
  unfold fullRedrawStep
  split <;> rfl

theorem statusBarStep_core (now : Nat) (s : SysState) :
    coreView (statusBarStep now s) = coreView s := by
  unfold statusBarStep
  split <;> rfl

theorem streamBranch_core (now : Nat) (s : SysState) :
    coreView (streamBranch now s) = coreView s := by
  unfold streamBranch
  split <;> (try split) <;> rfl

theorem discBranchAnim_core (now : Nat) (s : SysState) :
    coreView (discBranchAnim now s).1 = coreView s := by
  unfold discBranchAnim
  split <;> (try split) <;> rfl

theorem discBranch_core (now : Nat) (s : SysState) :
    coreView (discBranch now s).1 = coreView s := by
  unfold discBranch
  split
  · rw [discBranchAnim_core]
    rfl
  · rw [discBranchAnim_core]

theorem idleBranch_core (s : SysState) :
    coreView (idleBranch s) = coreView s := by
  unfold idleBranch
  split <;> rfl

theorem updateDisplay_core (now : Nat) (s : SysState) :
    coreView ((updateDisplay now s).1) = coreView s := by
  simp only [updateDisplay]
  split
  · rw [streamBranch_core, statusBarStep_core, fullRedrawStep_core]
  · split
    · rw [discBranch_core, statusBarStep_core, fullRedrawStep_core]
    · rw [idleBranch_core, statusBarStep_core, fullRedrawStep_core]

theorem displayStateCode_congr {a b : SysState} (h : coreView a = coreView b) :
    displayStateCode a = displayStateCode b := by
  unfold coreView at h
  simp only [Prod.mk.injEq] at h
  unfold displayStateCode
  rw [h.1, h.2.1]

theorem updateDisplay_obs (now : Nat) (s : SysState) :
    (updateDisplay now s).2.fullRedraw = fullRedrawCond s ∧
    (updateDisplay now s).2.observedState = displayStateCode s := by
  simp only [updateDisplay]
  split
  · exact ⟨rfl, rfl⟩
  · split
    · exact ⟨rfl, rfl⟩
    · exact ⟨rfl, rfl⟩

theorem fullRedrawStep_settled (now : Nat) (s : SysState) :
    (fullRedrawStep now s).needsFullRedraw = false ∧
    (fullRedrawStep now s).lastDisplayState = displayStateCode s := by
  unfold fullRedrawStep fullRedrawCond
  split <;> simp_all

theorem statusBarStep_frame (now : Nat) (s : SysState) :
    (statusBarStep now s).needsFullRedraw = s.needsFullRedraw ∧
    (statusBarStep now s).lastDisplayState = s.lastDisplayState := by
  unfold statusBarStep
  split <;> exact ⟨rfl, rfl⟩

theorem streamBranch_frame (now : Nat) (s : SysState) :
    (streamBranch now s).needsFullRedraw = s.needsFullRedraw ∧
    (streamBranch now s).lastDisplayState = s.lastDisplayState := by
  unfold streamBranch
  split <;> (try split) <;> exact ⟨rfl, rfl⟩

theorem discBranchAnim_frame (now : Nat) (s : SysState) :
    (discBranchAnim now s).1.needsFullRedraw = s.needsFullRedraw ∧
    (discBranchAnim now s).1.lastDisplayState = s.lastDisplayState := by
  unfold discBranchAnim
  split <;> (try split) <;> exact ⟨rfl, rfl⟩

theorem discBranch_frame (now : Nat) (s : SysState) :
    (discBranch now s).1.needsFullRedraw = s.needsFullRedraw ∧
    (discBranch now s).1.lastDisplayState = s.lastDisplayState := by
  unfold discBranch
  split <;> (rw [(discBranchAnim_frame now _).1, (discBranchAnim_frame now _).2]; exact ⟨rfl, rfl⟩)

theorem idleBranch_frame (s : SysState) :
    (idleBranch s).needsFullRedraw = s.needsFullRedraw ∧
    (idleBranch s).lastDisplayState = s.lastDisplayState := by
  unfold idleBranch
  split <;> exact ⟨rfl, rfl⟩

theorem updateDisplay_settled (now : Nat) (s : SysState) :
    ((updateDisplay now s).1).needsFullRedraw = false ∧
    ((updateDisplay now s).1).lastDisplayState = displayStateCode ((updateDisplay now s).1) := by
  have hcode : displayStateCode ((updateDisplay now s).1) = displayStateCode s :=
    displayStateCode_congr (updateDisplay_core now s)
  rw [hcode]
  simp only [updateDisplay]
  split
  · rw [(streamBranch_frame _ _).1, (streamBranch_frame _ _).2,
        (statusBarStep_frame _ _).1, (statusBarStep_frame _ _).2]
    exact fullRedrawStep_settled now s
  · split
    · rw [(discBranch_frame _ _).1, (discBranch_frame _ _).2,
          (statusBarStep_frame _ _).1, (statusBarStep_frame _ _).2]
      exact fullRedrawStep_settled now s
    · rw [(idleBranch_frame _).1, (idleBranch_frame _).2,
          (statusBarStep_frame _ _).1, (statusBarStep_frame _ _).2]
      exact fullRedrawStep_settled now s

theorem fullRedrawCond_settled {s : SysState} (h1 : s.needsFullRedraw = false)
    (h2 : s.lastDisplayState = displayStateCode s) : fullRedrawCond s = false := by
  unfold fullRedrawCond
  simp [h1, h2]

/-- Total number of bytes a transport schedule offers to accept. -/
def sumAccepted (l : List Step) : Nat := (l.map Step.accepted).sum

theorem transmitLoop_le : ∀ (sched : List Step) (total n : Nat), total ≤ n →
    transmitLoop total n sched ≤ n
  | [], total, n, h => h
  | st :: rest, total, n, h => by
      unfold transmitLoop
      split
      · rename_i hc
        exact transmitLoop_le rest _ n (by omega)
      · exact h

theorem transmitLoop_complete : ∀ (sched : List Step) (total n : Nat),
    (∀ st ∈ sched, st.connected = true) →
    n ≤ total + sumAccepted sched → total ≤ n → transmitLoop total n sched = n
  | [], total, n, _, hsum, hle => by
      simp only [sumAccepted, List.map_nil, List.sum_nil] at hsum
      unfold transmitLoop
      omega
  | st :: rest, total, n, hsched, hsum, hle => by
      unfold transmitLoop
      have hst := hsched st (by simp)
      by_cases htot : total < n
      · rw [if_pos (by simp [htot, hst])]
        apply transmitLoop_complete rest _ n
            (fun x hx => hsched x (List.mem_cons_of_mem st hx))
        · simp only [sumAccepted, List.map_cons, List.sum_cons] at hsum ⊢
          omega
        · omega
      · rw [if_neg (by simp [htot])]
        omega

theorem transmitLoop_partial : ∀ (pre : List Step) (d : Step) (rest : List Step)
    (total n : Nat), (∀ st ∈ pre, st.connected = true) → d.connected = false →
    total + sumAccepted pre < n → transmitLoop total n (pre ++ d :: rest) < n
  | [], d, rest, total, n, _, hd, hsum => by
      simp only [List.nil_append]
      unfold transmitLoop
      rw [if_neg (by simp [hd])]
      simp [sumAccepted] at hsum
      omega
  | st :: pre, d, rest, total, n, hpre, hd, hsum => by
      simp only [List.cons_append]
      unfold transmitLoop
      have hsum' : total + st.accepted + sumAccepted pre < n := by
        simp [sumAccepted] at hsum ⊢
        omega
      rw [if_pos (by simp [hpre st (by simp)]; omega)]
      apply transmitLoop_partial pre d rest _ n
          (fun x hx => hpre x (List.mem_cons_of_mem st hx)) hd
      omega

/-- Number of full-screen redraws that a run of updateDisplay calls at
the given clock values performs, with no transition in between (the
connection flags are only written by touch, timeout and the transport
callback, none of which run here). -/
def fullRedrawCount : List Nat → SysState → Nat
  | [], _ => 0
  | t :: ts, s =>
      (if (updateDisplay t s).2.fullRedraw then 1 else 0) +
        fullRedrawCount ts (updateDisplay t s).1

theorem fullRedrawCount_settled : ∀ (times : List Nat) (s : SysState),
    s.needsFullRedraw = false → s.lastDisplayState = displayStateCode s →
    fullRedrawCount times s = 0
  | [], _, _, _ => rfl
  | t :: ts, s, h1, h2 => by
      unfold fullRedrawCount
      rw [(updateDisplay_obs t s).1, fullRedrawCond_settled h1 h2]
      simp only [if_neg Bool.false_ne_true, Nat.zero_add]
      exact fullRedrawCount_settled ts _ (updateDisplay_settled t s).1
        (updateDisplay_settled t s).2

theorem fullRedrawCount_pending (t : Nat) (ts : List Nat) (s : SysState)
    (h : s.needsFullRedraw = true) : fullRedrawCount (t :: ts) s = 1 := by
  unfold fullRedrawCount
  have hcond : fullRedrawCond s = true := by
    unfold fullRedrawCond
    simp [h]
  rw [(updateDisplay_obs t s).1, hcond,
      fullRedrawCount_settled ts _ (updateDisplay_settled t s).1 (updateDisplay_settled t s).2]
  rfl

theorem mappedLevel_bounds (buffer : List Nat) :
    0 ≤ mappedLevel buffer ∧ mappedLevel buffer ≤ 100 := by
  unfold mappedLevel
  dsimp only
  omega

theorem calculateAudioLevel_some {buffer : List Nat} {lastLevel v : Int}
    (h : calculateAudioLevel buffer lastLevel = some v) :
    v = Int.tdiv (mappedLevel buffer * 7 + lastLevel * 3) 10 := by
  unfold calculateAudioLevel at h
  split at h
  · exact absurd h (by simp)
  · exact (Option.some_inj.mp h).symm

theorem blend_bounds {m p : Int} (hm0 : 0 ≤ m) (hm1 : m ≤ 100) (hp0 : 0 ≤ p)
    (hp1 : p ≤ 100) :
    0 ≤ Int.tdiv (m * 7 + p * 3) 10 ∧ Int.tdiv (m * 7 + p * 3) 10 ≤ 100 := by
  rw [Int.tdiv_eq_ediv (by omega) (by omega)]
  omega

/-- One call of the analyzer as invoked by loop, lines 553-558: the
static lastLevel is replaced by the new level when the call is defined
(the undefined one-byte case cannot arise for blocks of at least one
full sample). -/
def analyzerStep (lastLevel : Int) (buffer : List Nat) : Int :=
  match calculateAudioLevel buffer lastLevel with
  | some v => v
  | none => lastLevel

/-- A sequence of analyzer calls starting from the initial smoothing
state lastLevel = 0 (line 108). -/
def analyzerRun (blocks : List (List Nat)) : Int :=
  blocks.foldl analyzerStep 0

theorem analyzerStep_bounds (lastLevel : Int) (buffer : List Nat)
    (h0 : 0 ≤ lastLevel) (h1 : lastLevel ≤ 100) :
    0 ≤ analyzerStep lastLevel buffer ∧ analyzerStep lastLevel buffer ≤ 100 := by
  unfold analyzerStep
  split
  · rename_i v hv
    rw [calculateAudioLevel_some hv]
    exact blend_bounds (mappedLevel_bounds buffer).1 (mappedLevel_bounds buffer).2 h0 h1
  · exact ⟨h0, h1⟩

theorem foldl_analyzerStep_bounds : ∀ (blocks : List (List Nat)) (lastLevel : Int),
    0 ≤ lastLevel → lastLevel ≤ 100 →
    0 ≤ blocks.foldl analyzerStep lastLevel ∧ blocks.foldl analyzerStep lastLevel ≤ 100
  | [], lastLevel, h0, h1 => ⟨h0, h1⟩
  | b :: bs, lastLevel, h0, h1 => by
      simp only [List.foldl_cons]
      exact foldl_analyzerStep_bounds bs _ (analyzerStep_bounds lastLevel b h0 h1).1
        (analyzerStep_bounds lastLevel b h0 h1).2

theorem calculateAudioLevel_eq_spec (buffer : List Nat) (previous : Int)
    (h : 1 ≤ buffer.length / 2) :
    calculateAudioLevel buffer previous =
      some (levelAnalyzerSpec (bytesToSamples buffer) previous) := by
  unfold calculateAudioLevel
  rw [if_neg (by omega)]
  congr 1
  unfold mappedLevel levelAnalyzerSpec
  dsimp only
  rw [bytesToSamples_length, foldl_max_eq_foldr _ 0, Nat.zero_max]
  norm_num [Nat.mul_comm]

theorem coreView_fields {a b : SysState} (h : coreView a = coreView b) :
    a.btConnected = b.btConnected ∧ a.btDiscoverable = b.btDiscoverable ∧
    a.discoverableStartTime = b.discoverableStartTime ∧
    a.lastTouchState = b.lastTouchState ∧ a.lastLevel = b.lastLevel ∧
    a.lastAudioUpdate = b.lastAudioUpdate := by
  unfold coreView at h
  simp only [Prod.mk.injEq] at h
  exact ⟨h.1, h.2.1, h.2.2.1, h.2.2.2.1, h.2.2.2.2.1, h.2.2.2.2.2⟩

theorem touchPhase_disc (now : Nat) (pos : TouchPoint) (s : SysState)
    (hc : s.btConnected = false) (hd : s.btDiscoverable = true) :
    (touchPhase now pos s).1.btConnected = false ∧
    (touchPhase now pos s).1.btDiscoverable = true ∧
    (touchPhase now pos s).1.discoverableStartTime = s.discoverableStartTime := by
  simp only [touchPhase, hc, hd]
  simp [hc, hd]

theorem touchPhase_stop (now : Nat) (pos : TouchPoint) (s : SysState)
    (h : (touchPhase now pos s).2.2 = true) :
    (touchPhase now pos s).1.btConnected = false := by
  simp only [touchPhase] at h ⊢
  simp only [h]
  simp

theorem timeoutPhase_fires (now : Nat) (s : SysState) (hc : s.btConnected = false)
    (hd : s.btDiscoverable = true)
    (ht : usub now s.discoverableStartTime > DISCOVERABLE_DURATION) :
    (timeoutPhase now s).btDiscoverable = false ∧
    (timeoutPhase now s).btConnected = false := by
  unfold timeoutPhase
  rw [if_pos (by simp [hc, hd, ht])]
  exact ⟨rfl, hc⟩

theorem timeoutPhase_btConnected (now : Nat) (s : SysState) :
    (timeoutPhase now s).btConnected = s.btConnected := by
  unfold timeoutPhase
  split <;> rfl

theorem audioPhase_not_connected (now : Nat) (audioRead : Option (List Nat))
    (sched : List Step) (s : SysState) (h : s.btConnected = false) :
    audioPhase now audioRead sched s = (s, none) := by
  unfold audioPhase
  rw [if_neg (by simp [h])]

theorem tick_proj (i : TickInput) (s : SysState) :
    (tick i s).2.disp = (updateDisplay i.now s).2 ∧
    (tick i s).2.stopHit = (touchPhase i.now i.pos (updateDisplay i.now s).1).2.2 ∧
    (tick i s).1 = (audioPhase i.now i.audioRead i.sched
        (timeoutPhase i.now (touchPhase i.now i.pos (updateDisplay i.now s).1).1)).1 ∧
    (tick i s).2.sent = (audioPhase i.now i.audioRead i.sched
        (timeoutPhase i.now (touchPhase i.now i.pos (updateDisplay i.now s).1).1)).2 :=
  ⟨rfl, rfl, rfl, rfl⟩

theorem tick_disc_timeout (i : TickInput) (s : SysState) (hc : s.btConnected = false)
    (hd : s.btDiscoverable = true)
    (ht : DISCOVERABLE_DURATION < usub i.now s.discoverableStartTime) :
    connState (tick i s).1 = .Idle := by
  rw [(tick_proj i s).2.2.1]
  obtain ⟨e1, e2, e3, _, _, _⟩ := coreView_fields (updateDisplay_core i.now s)
  obtain ⟨t1, t2, t3⟩ := touchPhase_disc i.now i.pos _ (e1.trans hc) (e2.trans hd)
  obtain ⟨f1, f2⟩ := timeoutPhase_fires i.now _ t1 t2 (by rw [t3, e3]; exact ht)
  rw [audioPhase_not_connected _ _ _ _ f2]
  unfold connState
  rw [f2, f1]
  rfl

theorem fullRedrawStep_dispLastUpdate (now : Nat) (s : SysState) :
    (fullRedrawStep now s).dispLastUpdate = s.dispLastUpdate := by
  unfold fullRedrawStep
  split <;> rfl

theorem statusBarStep_dispLastUpdate (now : Nat) (s : SysState) :
    (statusBarStep now s).dispLastUpdate = s.dispLastUpdate := by
  unfold statusBarStep
  split <;> rfl

theorem discBranchAnim_countdown (now : Nat) (s : SysState)
    (h : usub now s.dispLastUpdate > 50) :
    (discBranchAnim now s).2 = some (remainingSecs now s.discoverableStartTime) := by
  unfold discBranchAnim
  rw [if_pos h]
  split <;> rfl

theorem discBranch_countdown (now : Nat) (s : SysState)
    (h : usub now s.dispLastUpdate > 50) :
    (discBranch now s).2 = some (remainingSecs now s.discoverableStartTime) := by
  unfold discBranch
  split
  · exact discBranchAnim_countdown now _ h
  · exact discBranchAnim_countdown now s h

theorem updateDisplay_countdown (now : Nat) (s : SysState) (hc : s.btConnected = false)
    (hd : s.btDiscoverable = true) (h50 : usub now s.dispLastUpdate > 50) :
    (updateDisplay now s).2.countdown = some (remainingSecs now s.discoverableStartTime) := by
  obtain ⟨e1, e2, e3, _, _, _⟩ := coreView_fields
    ((statusBarStep_core now (fullRedrawStep now s)).trans (fullRedrawStep_core now s))
  have hup : (statusBarStep now (fullRedrawStep now s)).dispLastUpdate = s.dispLastUpdate :=
    (statusBarStep_dispLastUpdate now _).trans (fullRedrawStep_dispLastUpdate now s)
  simp only [updateDisplay]
  rw [e1.trans hc, e2.trans hd]
  simp only [Bool.false_eq_true, if_false, if_true]
  rw [discBranch_countdown now _ (by rw [hup]; exact h50), e3]

theorem usub_lt (a b : Nat) : usub a b < U32 := by
  unfold usub
  exact Nat.mod_lt _ (by norm_num [U32])

theorem usub_of_wrap (e : Nat) (h1 : DISCOVERABLE_DURATION < e) (h2 : e < U32) :
    usub DISCOVERABLE_DURATION e / 1000 =
      (DISCOVERABLE_DURATION + U32 - e) % U32 / 1000 ∧
    (e ≤ 2147483648 → 2147483 ≤ usub DISCOVERABLE_DURATION e / 1000) := by
  unfold usub DISCOVERABLE_DURATION U32 at *
  omega

theorem connState_discoverable {s : SysState} (h : connState s = .Discoverable) :
    s.btConnected = false ∧ s.btDiscoverable = true := by
  unfold connState at h
  cases hcb : s.btConnected <;> cases hdb : s.btDiscoverable <;>
    rw [hcb, hdb] at h <;> simp_all

/-- A settled Streaming snapshot: a peer attached while the device was
discoverable (the callback does not clear btDiscoverable), the screen
has been redrawn for state 2, no touch in progress. -/
def sStreaming : SysState :=
  ⟨true, true, 0, false, 2, 0, 0, 0, false, 0, 0, 999, 0⟩

/-- A settled Discoverable snapshot: entry timestamp 0, screen redrawn
for state 1, no touch in progress. -/
def sDisc : SysState :=
  ⟨false, true, 0, false, 1, 0, 0, 0, false, 0, 0, 999, 0⟩

/-- A settled Idle snapshot: both connection flags clear, screen
redrawn for state 0, no touch in progress. -/
def sIdle : SysState :=
  ⟨false, false, 0, false, 0, 0, 0, 0, false, 0, 0, 999, 0⟩

/-- A tick input with no touch contact, clock 1000 ms, no audio. -/
def iNoTouch1000 : TickInput := ⟨⟨0, 0⟩, 1000, none, []⟩

/-- A tick input with no touch contact, clock 60001 ms (one past the
discoverability window), no audio. -/
def iNoTouch60001 : TickInput := ⟨⟨0, 0⟩, 60001, none, []⟩

/-- A tick input pressing inside the STOP button region, with an audio
block offered and a transport willing to take it. -/
def iStopPress : TickInput := ⟨⟨200, 200⟩, 100, some [10, 0, 10, 0], [⟨true, 2048⟩]⟩

/-- C1: claim counterexample.  In the reachable Streaming state the
callback left btDiscoverable set, so a peer-detach (ESP_SPP_CLOSE_EVT)
moves the machine to Discoverable, not to Idle, and a following tick
inside the 60 s window keeps it Discoverable. -/
theorem c1_counterexample :
    connState sStreaming = .Streaming ∧
    connState (btCallback .close sStreaming) = .Discoverable ∧
    connState (btCallback .close sStreaming) ≠ .Idle ∧
    connState (tick iNoTouch1000 (btCallback .close sStreaming)).1 = .Discoverable := by
  decide

/-- C1 (amended): a peer-detach while Streaming clears only btConnected
(line 428); the machine lands in Discoverable when btDiscoverable is
still set and in Idle otherwise — it reaches Idle only later, once the
discoverability timeout check fires. -/
theorem c1_peer_detach (s : SysState) (_h : connState s = .Streaming) :
    connState (btCallback .close s) =
      (if s.btDiscoverable then ConnState.Discoverable else ConnState.Idle) := by
  unfold btCallback connState
  simp

theorem c1_peer_detach_witness :
    connState sStreaming = .Streaming ∧
    connState (btCallback .close sStreaming) =
      (if sStreaming.btDiscoverable then ConnState.Discoverable else ConnState.Idle) :=
  ⟨by decide, c1_peer_detach sStreaming (by decide)⟩

/-- C2: claim counterexample.  loop() calls updateDisplay (line 488)
before the touch handler and the timeout check, so rendering works on
the pre-transition state: in the tick where the discoverability window
has just expired, the display observes currentState = 1 (Discoverable)
while the same tick resolves the transition to Idle afterwards.  Had
state transitions been resolved before display rendering, the rendering
would have observed 0 (Idle). -/
theorem c2_counterexample :
    (tick iNoTouch60001 sDisc).2.disp.observedState = 1 ∧
    displayStateCode (tick iNoTouch60001 sDisc).1 = 0 ∧
    connState (tick iNoTouch60001 sDisc).1 = .Idle := by
  decide

/-- C2 (amended): within one tick the order is display rendering first
(on the incoming state), then touch input, then timeout transitions,
then the audio read/send; the consequent of the claim still holds:
touch is resolved before the audio phase, so when the STOP button fires
the audio phase of the same tick transmits nothing and the tick leaves
the connection down. -/
theorem c2_tick_order (i : TickInput) (s : SysState) :
    (tick i s).2.disp.observedState = displayStateCode s ∧
    ((tick i s).2.stopHit = true →
      (tick i s).2.sent = none ∧ (tick i s).1.btConnected = false) := by
  constructor
  · rw [(tick_proj i s).1, (updateDisplay_obs i.now s).2]
  · intro h
    rw [(tick_proj i s).2.1] at h
    have hb : (touchPhase i.now i.pos (updateDisplay i.now s).1).1.btConnected = false :=
      touchPhase_stop _ _ _ h
    have hb2 : (timeoutPhase i.now
        (touchPhase i.now i.pos (updateDisplay i.now s).1).1).btConnected = false :=
      (timeoutPhase_btConnected _ _).trans hb
    refine ⟨?_, ?_⟩
    · rw [(tick_proj i s).2.2.2, audioPhase_not_connected _ _ _ _ hb2]
    · rw [(tick_proj i s).2.2.1, audioPhase_not_connected _ _ _ _ hb2]
      exact hb2

theorem c2_tick_order_witness :
    (tick iStopPress sStreaming).2.disp.observedState = displayStateCode sStreaming ∧
    (tick iStopPress sStreaming).2.stopHit = true ∧
    (tick iStopPress sStreaming).2.sent = none ∧
    (tick iStopPress sStreaming).1.btConnected = false :=
  ⟨(c2_tick_order iStopPress sStreaming).1, by decide,
   (c2_tick_order iStopPress sStreaming).2 (by decide)⟩

/-- C3: the transmit loop of lines 561-569.  First part: if the
transport stays connected at every iteration and the chunks it accepts
cover the block, the loop terminates with totalWritten = N.  Second
part: if the transport disconnects after accepting only part of the
block, the loop stops at the disconnect check and reports a total
strictly below N (line 571 then logs the partial delivery and nothing
escalates — the tick simply continues). -/
theorem c3_transmit :
    (∀ (n : Nat) (sched : List Step),
      (∀ st ∈ sched, st.connected = true) → n ≤ sumAccepted sched →
      transmitLoop 0 n sched = n) ∧
    (∀ (n : Nat) (pre : List Step) (d : Step) (rest : List Step),
      (∀ st ∈ pre, st.connected = true) → d.connected = false →
      sumAccepted pre < n →
      transmitLoop 0 n (pre ++ d :: rest) < n) :=
  ⟨fun n sched hs hsum =>
    transmitLoop_complete sched 0 n hs (by omega) (Nat.zero_le n),
   fun n pre d rest hp hd hs =>
    transmitLoop_partial pre d rest 0 n hp hd (by omega)⟩

theorem c3_transmit_witness :
    transmitLoop 0 2048 [⟨true, 1⟩, ⟨true, 500⟩, ⟨true, 2048⟩] = 2048 ∧
    transmitLoop 0 2048 [⟨true, 600⟩, ⟨false, 0⟩] < 2048 :=
  ⟨c3_transmit.1 2048 [⟨true, 1⟩, ⟨true, 500⟩, ⟨true, 2048⟩] (by decide) (by decide),
   c3_transmit.2 2048 [⟨true, 600⟩] ⟨false, 0⟩ [] (by decide) (by decide) (by decide)⟩

/-- C4: claim counterexample.  The caller guard on line 553 only
requires bytesRead > 0, but a one-byte buffer gives sampleCount =
length / 2 = 0 and line 100 divides the sample sum by zero (undefined
behaviour, modelled as none). -/
theorem c4_counterexample :
    0 < ([1] : List Nat).length ∧ calculateAudioLevel [1] 0 = none := by
  decide

/-- C4 (amended): under the guard bytes read ≥ 2 — at least one
complete 16-bit sample — every arithmetic operation in
calculateAudioLevel is defined; the guard bytes read > 0 alone does not
exclude the one-byte division by zero. -/
theorem c4_no_failure (buffer : List Nat) (lastLevel : Int)
    (h : 2 ≤ buffer.length) :
    (calculateAudioLevel buffer lastLevel).isSome = true := by
  unfold calculateAudioLevel
  rw [if_neg (by omega)]
  rfl

theorem c4_no_failure_witness :
    2 ≤ ([10, 0, 10, 0] : List Nat).length ∧
    (calculateAudioLevel [10, 0, 10, 0] 0).isSome = true :=
  ⟨by decide, c4_no_failure [10, 0, 10, 0] 0 (by decide)⟩

/-- C5: the analyzer computes exactly the spec formula: mean and peak
absolute amplitude of the 16-bit samples, combined = (3*mean + peak)/4,
the 100-2000 to 0-100 linear map clamped to [0,100], and the 70/30
blend with the previous output — levelAnalyzerSpec is the formula
transcribed from the spec wording, and on every block with at least one
full sample the code-derived calculateAudioLevel agrees with it. -/
theorem c5_level_formula (buffer : List Nat) (previous : Int)
    (h : 1 ≤ buffer.length / 2) :
    calculateAudioLevel buffer previous =
      some (levelAnalyzerSpec (bytesToSamples buffer) previous) :=
  calculateAudioLevel_eq_spec buffer previous h

theorem c5_level_formula_witness :
    1 ≤ ([140, 0] : List Nat).length / 2 ∧
    calculateAudioLevel [140, 0] 0 =
      some (levelAnalyzerSpec (bytesToSamples [140, 0]) 0) :=
  ⟨by decide, c5_level_formula [140, 0] 0 (by decide)⟩

/-- C6: for every sequence of blocks, the analyzer output starting from
the initial smoothing state lastLevel = 0 stays in [0, 100]: the mapped
value is clamped to [0, 100] on line 105 and the 70/30 blend of two
values in [0, 100] stays in [0, 100]. -/
theorem c6_level_bounded (blocks : List (List Nat)) :
    0 ≤ analyzerRun blocks ∧ analyzerRun blocks ≤ 100 :=
  foldl_analyzerStep_bounds blocks 0 le_rfl (by norm_num)

/-- C7: claim counterexample.  Integer division makes the smoothing
bound of the claim fail by one: from previous output 1 (reached by one
block of constant sample 140), a silent block maps to 0 and the new
output is (0*7 + 1*3)/10 = 0, so |new - previous| = 1 exceeds
7/10 * |mapped - previous| = 7/10. -/
theorem c7_counterexample :
    calculateAudioLevel [140, 0] 0 = some 1 ∧
    calculateAudioLevel [0, 0] 1 = some 0 ∧
    mappedLevel [0, 0] = 0 ∧
    ¬ (10 * ((0 : Int) - 1).natAbs ≤ 7 * (mappedLevel [0, 0] - 1).natAbs) := by
  decide

/-- C7 (amended): the change per call obeys the 70/30 blend up to the
floor rounding of the integer division: 10 * |new - previous| ≤
7 * |mapped - previous| + 9; in particular a single call starting from
output 0 reaches at most 70 and can never jump from 0 to 100. -/
theorem c7_smoothing_bound (buffer : List Nat) (prev v : Int)
    (h0 : 0 ≤ prev) (h1 : prev ≤ 100)
    (hv : calculateAudioLevel buffer prev = some v) :
    10 * (v - prev).natAbs ≤ 7 * (mappedLevel buffer - prev).natAbs + 9 ∧
    (prev = 0 → v ≤ 70) := by
  have hm := mappedLevel_bounds buffer
  have hveq := calculateAudioLevel_some hv
  subst hveq
  rw [Int.tdiv_eq_ediv (by omega) (by omega)]
  refine ⟨by omega, ?_⟩
  intro hp
  subst hp
  omega

theorem c7_smoothing_bound_witness :
    0 ≤ (1 : Int) ∧ (1 : Int) ≤ 100 ∧
    calculateAudioLevel [0, 0] 1 = some 0 ∧
    (10 * ((0 : Int) - 1).natAbs ≤ 7 * (mappedLevel [0, 0] - 1).natAbs + 9 ∧
      ((1 : Int) = 0 → (0 : Int) ≤ 70)) :=
  ⟨by decide, by decide, by decide,
   c7_smoothing_bound [0, 0] 1 0 (by decide) (by decide) (by decide)⟩

/-- C8: whenever the state is Discoverable (so btConnected is false and
no peer has attached) and the elapsed time since entry exceeds
DISCOVERABLE_DURATION = 60000 ms, the timeout check of lines 532-538
clears btDiscoverable within the same tick, so the tick ends in Idle:
the system is never Discoverable beyond the fixed window. -/
theorem c8_discoverable_timeout (i : TickInput) (s : SysState)
    (hD : connState s = .Discoverable)
    (ht : DISCOVERABLE_DURATION < usub i.now s.discoverableStartTime) :
    connState (tick i s).1 = .Idle := by
  obtain ⟨hc, hd⟩ := connState_discoverable hD
  exact tick_disc_timeout i s hc hd ht

theorem c8_discoverable_timeout_witness :
    connState sDisc = .Discoverable ∧
    DISCOVERABLE_DURATION < usub 60001 sDisc.discoverableStartTime ∧
    connState (tick iNoTouch60001 sDisc).1 = .Idle :=
  ⟨by decide, by decide,
   c8_discoverable_timeout iNoTouch60001 sDisc (by decide) (by decide)⟩

/-- C9: claim counterexample.  btCallback sets needsFullRedraw
unconditionally on ESP_SPP_CLOSE_EVT (line 429), even when btConnected
is already false: a detach notification delivered while already Idle is
a no-op on the ConnectionState — no transition happens — yet it forces
one full-screen redraw on the next updateDisplay.  From the settled
Idle state, ticks alone perform zero full redraws, the stray close
event leaves the state Idle, and the following run performs one full
redraw with zero intervening transitions. -/
theorem c9_counterexample :
    sIdle.needsFullRedraw = false ∧
    sIdle.lastDisplayState = displayStateCode sIdle ∧
    fullRedrawCount [0, 100, 200] sIdle = 0 ∧
    connState sIdle = .Idle ∧
    connState (btCallback .close sIdle) = .Idle ∧
    fullRedrawCount [0, 100, 200] (btCallback .close sIdle) = 1 := by
  decide

/-- C9 (amended): the full-screen redraw of lines 284-296 happens
exactly once per needsFullRedraw request and zero times between
requests: a run of updateDisplay calls from a settled state
(needsFullRedraw clear and lastDisplayState current) performs zero full
redraws however many ticks pass, a run beginning with a pending request
performs exactly one (updateDisplay itself re-establishes the settled
state).  Every ConnectionState transition raises such a request, but so
does a peer-detach notification delivered while already Idle (the
callback cases are the third conjunct, unconditional in the state), so
the redraw discipline is per raised request, not exactly per
transition. -/
theorem c9_full_redraw_once :
    (∀ (times : List Nat) (s : SysState), s.needsFullRedraw = false →
      s.lastDisplayState = displayStateCode s → fullRedrawCount times s = 0) ∧
    (∀ (t : Nat) (ts : List Nat) (s : SysState), s.needsFullRedraw = true →
      fullRedrawCount (t :: ts) s = 1) ∧
    (∀ s : SysState, (btCallback .srvOpen s).needsFullRedraw = true ∧
      (btCallback .close s).needsFullRedraw = true) :=
  ⟨fullRedrawCount_settled, fullRedrawCount_pending, fun _ => ⟨rfl, rfl⟩⟩

theorem c9_full_redraw_once_witness :
    sDisc.needsFullRedraw = false ∧
    sDisc.lastDisplayState = displayStateCode sDisc ∧
    fullRedrawCount [0, 100, 200] sDisc = 0 ∧
    (btCallback .close sStreaming).needsFullRedraw = true ∧
    fullRedrawCount [0, 100, 200] (btCallback .close sStreaming) = 1 :=
  ⟨by decide, by decide,
   c9_full_redraw_once.1 [0, 100, 200] sDisc (by decide) (by decide),
   by decide,
   c9_full_redraw_once.2.1 0 [100, 200] (btCallback .close sStreaming) (by decide)⟩

/-- C10: in the tick in which the discoverability window expires, the
display update (which runs before the timeout check) still takes the
Discoverable branch and computes remaining = (60000 - elapsed) / 1000
in 32-bit unsigned arithmetic (line 384); with elapsed > 60000 the
subtraction wraps modulo 2^32, the displayed value equals
((60000 - elapsed) mod 2^32) / 1000 — at least 2147483, a huge count
rather than 0 — and the same tick then transitions to Idle. -/
theorem c10_countdown_wraps (i : TickInput) (s : SysState)
    (hc : s.btConnected = false) (hd : s.btDiscoverable = true)
    (h50 : usub i.now s.dispLastUpdate > 50)
    (hexp : DISCOVERABLE_DURATION < usub i.now s.discoverableStartTime)
    (hbound : usub i.now s.discoverableStartTime ≤ 2147483648) :
    (tick i s).2.disp.countdown =
      some ((DISCOVERABLE_DURATION + U32 - usub i.now s.discoverableStartTime)
        % U32 / 1000) ∧
    2147483 ≤ remainingSecs i.now s.discoverableStartTime ∧
    connState (tick i s).1 = .Idle := by
  have hw := usub_of_wrap (usub i.now s.discoverableStartTime) hexp (usub_lt _ _)
  refine ⟨?_, hw.2 hbound, tick_disc_timeout i s hc hd hexp⟩
  rw [(tick_proj i s).1, updateDisplay_countdown i.now s hc hd h50]
  exact congrArg some hw.1

theorem c10_countdown_wraps_witness :
    sDisc.btConnected = false ∧ sDisc.btDiscoverable = true ∧
    usub 60001 sDisc.dispLastUpdate > 50 ∧
    DISCOVERABLE_DURATION < usub 60001 sDisc.discoverableStartTime ∧
    ((tick iNoTouch60001 sDisc).2.disp.countdown =
        some ((DISCOVERABLE_DURATION + U32 - usub 60001 sDisc.discoverableStartTime)
          % U32 / 1000) ∧
      2147483 ≤ remainingSecs 60001 sDisc.discoverableStartTime ∧
      connState (tick iNoTouch60001 sDisc).1 = .Idle) :=
  ⟨by decide, by decide, by decide, by decide,
   c10_countdown_wraps iNoTouch60001 sDisc (by decide) (by decide) (by decide)
     (by decide) (by decide)⟩
